import Mathlib

/-!
# Verification of `sce_demo.py`

A shallow embedding of the Dataminr-to-ArcGIS glue script `src/sce_demo.py`.

Python JSON values are modelled by `JVal` (numbers as `Int`: the numeric
fields the script manipulates are millisecond timestamps and identifiers).
Fallible Python code is modelled in `Except PyErr`; the exceptions the
script distinguishes are `KeyError` / `IndexError` (caught by `extract`)
and `TypeError` (never caught).  Dictionaries are association lists in
insertion order, mirroring Python 3.7+ dict semantics.
-/

/-- The Python exception kinds relevant to `sce_demo.py`:
`extract` catches `KeyError` and `IndexError`; `TypeError` propagates. -/
inductive PyErr where
  | keyError
  | indexError
  | typeError
deriving DecidableEq, Repr

/-- A subscript used by `extract`: the script indexes with string keys and
integer list indices (e.g. `['eventLocation','coordinates',0]`). -/
inductive PyKey where
  | s (k : String)
  | i (n : Int)
deriving DecidableEq, Repr

/-- JSON-like Python values as the script sees them (parsed `requests`
responses).  Numbers are integers: the script only does arithmetic on
millisecond timestamps. -/
inductive JVal where
  | null
  | bool (b : Bool)
  | num (n : Int)
  | str (s : String)
  | arr (elems : List JVal)
  | obj (fields : List (String × JVal))

/-- A flat dictionary row (Python dict with string keys, insertion order). -/
abbrev Dict := List (String × JVal)

/-- Python truthiness of a JSON value (`if event_time:`, `if channels:` ...). -/
def JVal.truthy : JVal → Bool
  | .null => false
  | .bool b => b
  | .num n => n != 0
  | .str s => s ≠ ""
  | .arr xs => !xs.isEmpty
  | .obj fs => !fs.isEmpty

def JVal.isNull : JVal → Bool
  | .null => true
  | _ => false

def JVal.isObjB : JVal → Bool
  | .obj _ => true
  | _ => false

def JVal.isArrB : JVal → Bool
  | .arr _ => true
  | _ => false

def JVal.isNumB : JVal → Bool
  | .num _ => true
  | _ => false

def JVal.isStrB : JVal → Bool
  | .str _ => true
  | _ => false

/-- One Python subscript step `o[key]`.
* dict: `KeyError` when the string key is absent; an integer key on a
  string-keyed dict is likewise a missing key (`KeyError`);
* list: Python index semantics, negative indices count from the end,
  out of range is `IndexError`; a string subscript is a `TypeError`;
* string: indexing yields a one-character string;
* scalars (`None`, bools, numbers) are not subscriptable: `TypeError`. -/
def jIndex : JVal → PyKey → Except PyErr JVal
  | .obj fs, .s k =>
      match fs.lookup k with
      | some v => .ok v
      | none => .error PyErr.keyError
  | .obj _, .i _ => .error PyErr.keyError
  | .arr xs, .i n =>
      let m : Int := if n < 0 then n + xs.length else n
      if hm : 0 ≤ m ∧ m.toNat < xs.length then .ok (xs.get ⟨m.toNat, hm.2⟩)
      else .error PyErr.indexError
  | .arr _, .s _ => .error PyErr.typeError
  | .str t, .i n =>
      let cs := t.toList
      let m : Int := if n < 0 then n + cs.length else n
      if hm : 0 ≤ m ∧ m.toNat < cs.length then
        .ok (.str (String.singleton (cs.get ⟨m.toNat, hm.2⟩)))
      else .error PyErr.indexError
  | .str _, .s _ => .error PyErr.typeError
  | _, _ => .error PyErr.typeError

/-- Plain nested subscripting `obj[k1][k2]...` with no defaulting: the
reference semantics against which `extract`'s defaulting is stated. -/
def lookupPath : JVal → List PyKey → Except PyErr JVal
  | o, [] => .ok o
  | o, k :: ks =>
      match jIndex o k with
      | .ok v => lookupPath v ks
      | .error e => .error e

/-- The loop of `extract`: walk the keys, and on the first caught
`KeyError`/`IndexError` either raise `KeyError` (required and no default)
or return the default.  A `TypeError` propagates uncaught. -/
def extractGo (required : Bool) (default : JVal) : JVal → List PyKey → Except PyErr JVal
  | o, [] => .ok o
  | o, k :: ks =>
      match jIndex o k with
      | .ok v => extractGo required default v ks
      | .error PyErr.typeError => .error PyErr.typeError
      | .error _ =>
          if required && default.isNull then .error PyErr.keyError
          else .ok default

/-- Model of `extract(obj, keys, required=..., default=..., warn=...)` from
`sce_demo.py`.  `warn` only prints a warning and does not affect the
result. -/
def extract (obj : JVal) (keys : List PyKey) (required : Bool) (default : JVal)
    (warn : Bool) : Except PyErr JVal :=
  extractGo required default obj keys

/-- Python `str.split(sep)` for a one-character separator, on the character
list (`''.split('.') == ['']`, `'a.'.split('.') == ['a','']`). -/
def splitOnChar (c : Char) : List Char → List (List Char)
  | [] => [[]]
  | x :: xs =>
      let r := splitOnChar c xs
      if x = c then [] :: r
      else
        match r with
        | [] => [[x]]
        | y :: ys => (x :: y) :: ys

/-- Python `keys_delimited.split('.')`. -/
def splitDots (s : String) : List String :=
  (splitOnChar '.' s.toList).map List.asString

/-- Model of `d_extract(obj, keys_delimited, ...)`: split the dotted key string and
delegate to `extract`. -/
def d_extract (obj : JVal) (keys_delimited : String) (required : Bool)
    (default : JVal) (warn : Bool) : Except PyErr JVal :=
  extract obj ((splitDots keys_delimited).map PyKey.s) required default warn

/-- The value `extract` produces for an optional field
(`required=False, default=None`): the nested value, or `None` when some
key on the path is missing. -/
def optAt (o : JVal) (ks : List PyKey) : JVal :=
  match lookupPath o ks with
  | .ok v => v
  | .error _ => .null

/-- Whether a nested lookup fails with a *caught* exception
(`KeyError` or `IndexError`), i.e. the path is "missing". -/
def isMissing (r : Except PyErr JVal) : Bool :=
  match r with
  | .error PyErr.keyError => true
  | .error PyErr.indexError => true
  | _ => false

/-!
## Date formatting (`date_to_ags`, `timestamp_to_ags`)

The script renders dates with `date.astimezone(timezone.utc).strftime('%m/%d/%Y %H:%M:%S')`.
We model an instant as Unix epoch seconds (`Int`) and render its UTC civil
date with the standard days-to-civil conversion.
-/

/-- Zero-padded two-digit decimal field of `strftime`. -/
def pad2 (n : Nat) : String :=
  if n < 10 then "0" ++ toString n else toString n

/-- Zero-padded four-digit year field of `strftime` (`%Y`). -/
def pad4 (n : Nat) : String :=
  if n < 10 then "000" ++ toString n
  else if n < 100 then "00" ++ toString n
  else if n < 1000 then "0" ++ toString n
  else toString n

/-- Proleptic-Gregorian civil date `(year, month, day)` of a day count
relative to 1970-01-01 (standard era-based conversion). -/
def civilFromDays (z0 : Int) : Int × Nat × Nat :=
  let z := z0 + 719468
  let era : Int := Int.fdiv z 146097
  let doe : Nat := (z - era * 146097).toNat
  let yoe : Nat := (doe - doe / 1460 + doe / 36524 - doe / 146096) / 365
  let y : Int := (yoe : Int) + era * 400
  let doy : Nat := doe - (365 * yoe + yoe / 4 - yoe / 100)
  let mp : Nat := (5 * doy + 2) / 153
  let d : Nat := doy - (153 * mp + 2) / 5 + 1
  let m : Nat := if mp < 10 then mp + 3 else mp - 9
  (if m ≤ 2 then y + 1 else y, m, d)

/-- Model of `date_to_ags(date)`: the UTC rendering `MM/DD/YYYY HH:MM:SS` of an
instant given as Unix epoch seconds. -/
def date_to_ags (t : Int) : String :=
  let days := Int.fdiv t 86400
  let sod := (t - days * 86400).toNat
  let ymd := civilFromDays days
  pad2 ymd.2.1 ++ "/" ++ pad2 ymd.2.2 ++ "/" ++ pad4 ymd.1.toNat ++ " " ++
    pad2 (sod / 3600) ++ ":" ++ pad2 (sod % 3600 / 60) ++ ":" ++ pad2 (sod % 60)

/-- Model of `timestamp_to_ags(timestamp)`: seconds = ms/1000 (display truncates to
the second, hence floor division), then `date_to_ags`. -/
def timestamp_to_ags (ms : Int) : String :=
  date_to_ags (Int.fdiv ms 1000)

/-!
## GeoJSON construction (`row_to_geojson`, `rows_to_geojson`)
-/

/-- Python `row[k]` on a flat dict: `KeyError` when absent. -/
def getItem (d : Dict) (k : String) : Except PyErr JVal :=
  match d.lookup k with
  | some v => .ok v
  | none => .error PyErr.keyError

/-- Model of `row_to_geojson(row, lon_field, lat_field)`.  The coordinates list in
the source is `[row[lat_field], row[lon_field]]`, evaluated left to right,
and `properties` is the dict copy `{**row}`. -/
def row_to_geojson (row : Dict) (lon_field lat_field : String) : Except PyErr JVal := do
  let latv ← getItem row lat_field
  let lonv ← getItem row lon_field
  pure (.obj [("type", .str "Feature"),
              ("geometry", .obj [("type", .str "Point"),
                                 ("coordinates", .arr [latv, lonv])]),
              ("properties", .obj row)])

/-- Model of `rows_to_geojson(rows, lon_field, lat_field)`: one feature per row (the
comprehension propagates the first exception), wrapped in a
FeatureCollection. -/
def rows_to_geojson (rows : List Dict) (lon_field lat_field : String) : Except PyErr JVal := do
  let features ← rows.mapM (fun r => row_to_geojson r lon_field lat_field)
  pure (.obj [("type", .str "FeatureCollection"), ("features", .arr features)])

/-!
## Dataminr alert parsing (`alert_to_row`, `list_to_row`, `get_lists`)
-/

/-- Python `v > 0` as used on `eventTime`/`post.timestamp`: defined for
numbers (and bools, which are ints); otherwise `TypeError`. -/
def pyGtZeroTest : JVal → Except PyErr Bool
  | .num n => .ok (decide (0 < n))
  | .bool b => .ok b
  | _ => .error PyErr.typeError

/-- Numeric value of a timestamp operand; only evaluated after a successful
`> 0` comparison, which restricts the value to numbers/bools. -/
def pyToMsVal : JVal → Int
  | .num n => n
  | .bool true => 1
  | _ => 0

/-- Python `str(x)` requirement of `','.join`: elements must be strings. -/
def asStr : JVal → Except PyErr String
  | .str s => .ok s
  | _ => .error PyErr.typeError

/-- Python `','.join(v)` on a JSON value: joins a list of strings; a string
joins its characters; a dict joins its keys; otherwise `TypeError`. -/
def pyJoinComma (v : JVal) : Except PyErr String :=
  match v with
  | .arr xs => do
      let ss ← xs.mapM asStr
      pure (String.intercalate "," ss)
  | .str t => pure (String.intercalate "," (t.toList.map String.singleton))
  | .obj fs => pure (String.intercalate "," (fs.map Prod.fst))
  | _ => .error PyErr.typeError

/-- Python iteration `for t in v`: lists yield elements, strings yield
one-character strings, dicts yield keys; otherwise `TypeError`. -/
def pyIter : JVal → Except PyErr (List JVal)
  | .arr xs => .ok xs
  | .str t => .ok (t.toList.map (fun ch => .str (String.singleton ch)))
  | .obj fs => .ok (fs.map (fun p => .str p.1))
  | _ => .error PyErr.typeError

/-- The `if event_time and event_time > 0: props[...] = timestamp_to_ags(...)`
pattern of `alert_to_row` (also used for `post_time`). -/
def addTimeField (props : Dict) (key : String) (v : JVal) : Except PyErr Dict :=
  if v.truthy then do
    let b ← pyGtZeroTest v
    if b then pure (props ++ [(key, .str (timestamp_to_ags (pyToMsVal v)))])
    else pure props
  else pure props

/-- The `if channels: props['source'] = ','.join(channels)` step. -/
def addSourceField (props : Dict) (v : JVal) : Except PyErr Dict :=
  if v.truthy then do
    let s ← pyJoinComma v
    pure (props ++ [("source", .str s)])
  else pure props

/-- The `if terms: props[key] = ','.join([t[sub] for t in terms])` pattern
(`related_terms`/`text` and `categories`/`name`): the comprehension runs
first (and may raise `KeyError`), then the join requires strings. -/
def addJoinedSubfield (props : Dict) (key sub : String) (v : JVal) : Except PyErr Dict :=
  if v.truthy then do
    let items ← pyIter v
    let texts ← items.mapM (fun t => jIndex t (.s sub))
    let ss ← texts.mapM asStr
    pure (props ++ [(key, .str (String.intercalate "," ss))])
  else pure props

/-- The `props = {...}` dict literal of `alert_to_row` (insertion order). -/
def baseProps (aid place alert_type alert_type_color caption publisher_category
    publisher_category_color related_terms_query_url expand_alert_url post_text
    post_text_transl lonv latv : JVal) : Dict :=
  [("alert_id", aid), ("place", place), ("alert_type", alert_type),
   ("alert_type_color", alert_type_color), ("caption", caption),
   ("publisher_category", publisher_category),
   ("publisher_category_color", publisher_category_color),
   ("related_terms_query_url", related_terms_query_url),
   ("expand_alert_url", expand_alert_url), ("post_text", post_text),
   ("post_text_transl", post_text_transl), ("lon", lonv), ("lat", latv)]

/-- Model of `alert_to_row(obj)`: flatten a Dataminr alert object, following the
source line by line (dict-literal values evaluate in order; `alertId` is
`required=True`; the five manipulated fields append afterwards). -/
def alert_to_row (obj : JVal) : Except PyErr Dict := do
  let aid ← d_extract obj "alertId" true .null false
  let place ← d_extract obj "eventLocation.name" false .null false
  let alert_type ← d_extract obj "alertType.name" false .null false
  let alert_type_color ← d_extract obj "alertType.color" false .null false
  let caption ← d_extract obj "caption" false .null false
  let publisher_category ← d_extract obj "publisherCategory.name" false .null false
  let publisher_category_color ← d_extract obj "publisherCategory.color" false .null false
  let related_terms_query_url ← d_extract obj "relatedTermsQueryURL" false .null false
  let expand_alert_url ← d_extract obj "expandAlertURL" false .null false
  let post_text ← d_extract obj "post.text" false .null false
  let post_text_transl ← d_extract obj "post.translatedText" false .null false
  let lonv ← extract obj [.s "eventLocation", .s "coordinates", .i 0] false .null false
  let latv ← extract obj [.s "eventLocation", .s "coordinates", .i 1] false .null false
  let props := baseProps aid place alert_type alert_type_color caption
    publisher_category publisher_category_color related_terms_query_url
    expand_alert_url post_text post_text_transl lonv latv
  let event_time ← d_extract obj "eventTime" false .null false
  let props ← addTimeField props "event_time" event_time
  let post_time ← d_extract obj "post.timestamp" false .null false
  let props ← addTimeField props "post_time" post_time
  let channels ← d_extract obj "source.channels" false .null false
  let props ← addSourceField props channels
  let terms ← d_extract obj "relatedTerms" false .null false
  let props ← addJoinedSubfield props "related_terms" "text" terms
  let categories ← d_extract obj "categories" false .null false
  let props ← addJoinedSubfield props "categories" "name" categories
  pure props

/-- Model of `list_to_row(obj)`: flatten a Dataminr watchlist object (`id` is
`required=True`, `warn=True` throughout). -/
def list_to_row (obj : JVal) : Except PyErr Dict := do
  let lid ← d_extract obj "id" true .null true
  let lname ← d_extract obj "name" false .null true
  let lcolor ← d_extract obj "properties.watchlistColor" false .null true
  pure [("list_id", lid), ("list_name", lname), ("list_color", lcolor)]

/-- Python list concatenation `a + b`: `TypeError` unless both are lists. -/
def pyConcatLists (a b : JVal) : Except PyErr (List JVal) :=
  match a, b with
  | .arr xs, .arr ys => .ok (xs ++ ys)
  | _, _ => .error PyErr.typeError

/-- Model of `get_lists` applied to the parsed response JSON `j`: the three
watchlist categories each default to `[]`, are concatenated
`topics + companies + custom`, and each entry is flattened. -/
def get_lists (j : JVal) : Except PyErr (List Dict) := do
  let topics ← d_extract j "watchlists.TOPIC" false (.arr []) false
  let companies ← d_extract j "watchlists.COMPANY" false (.arr []) false
  let custom ← d_extract j "watchlists.CUSTOM" false (.arr []) false
  let tc ← pyConcatLists topics companies
  let lists ← pyConcatLists (.arr tc) custom
  lists.mapM list_to_row

/-!
## The dedup loop of `run`

`run` iterates the watchlist rows, fetches each list's alert rows
(modelled by a function `fetch`), and keeps an alert only the first time
its `alert_id` is seen.  Python set elements must be hashable, so the id
is required to be a JSON scalar (`in`/`add` on a set raise `TypeError`
for unhashable values).
-/

/-- Hashable JSON scalars (valid Python set elements). -/
inductive JScalar where
  | null
  | bool (b : Bool)
  | num (n : Int)
  | str (s : String)
deriving DecidableEq, Repr

def JVal.scalar? : JVal → Option JScalar
  | .null => some .null
  | .bool b => some (.bool b)
  | .num n => some (.num n)
  | .str s => some (.str s)
  | _ => none

/-- Python `d[k] = v` on a dict: replace in place when the key exists, else append. -/
def dictSet (d : Dict) (k : String) (v : JVal) : Dict :=
  if d.any (fun p => p.1 == k) then
    d.map (fun p => if p.1 == k then (k, v) else p)
  else d ++ [(k, v)]

/-- Python `{**a, **b}`: start from `a` and set each of `b`'s entries. -/
def dictMerge (a b : Dict) : Dict :=
  b.foldl (fun acc p => dictSet acc p.1 p.2) a

/-- The inner `for a in new_alerts` loop of `run`: state is
`(alerts, alert_ids)`. -/
def alertLoop (l : Dict) : List Dict → List Dict × List JScalar →
    Except PyErr (List Dict × List JScalar)
  | [], st => .ok st
  | a :: rest, st => do
      let v ← getItem a "alert_id"
      match v.scalar? with
      | none => .error PyErr.typeError
      | some aid =>
          if aid ∈ st.2 then alertLoop l rest st
          else alertLoop l rest (st.1 ++ [dictMerge a l], st.2 ++ [aid])

/-- The outer `for l in lists` loop of `run` (`l['list_id']` is read to
build the alert request; the fetched rows are `fetch l`). -/
def listLoop (fetch : Dict → List Dict) : List Dict → List Dict × List JScalar →
    Except PyErr (List Dict × List JScalar)
  | [], st => .ok st
  | l :: rest, st => do
      let _ ← getItem l "list_id"
      let st2 ← alertLoop l (fetch l) st
      listLoop fetch rest st2

/-- The alert-collection phase of `run`, starting from empty `alerts` and
`alert_ids`. -/
def run_dedup (lists : List Dict) (fetch : Dict → List Dict) :
    Except PyErr (List Dict × List JScalar) :=
  listLoop fetch lists ([], [])

/-!
## ArcGIS side (`add_geojson`, `append_to_layer`, `create_layer`,
`delete_before`, `delete_before_days`, and `run`'s update phase)

The vendor SDK calls are modelled as an event trace; the outcomes of the
fallible vendor calls (`layer.append`, `clone_items`) are inputs.
-/

/-- One observable ArcGIS-side action of the script. -/
inductive AgsEvent where
  | addItem (itemId title tags : String) (geojson : JVal)
  | appendCall (itemId : String)
  | printOut (s : String)
  | deleteItem (itemId : String)
  | deleteFeatures (whereClause : String)
  | logError (msg : String)

/-- Model of `add_geojson(gis, geojson, **item_options)`: upload the GeoJSON as an
item (`itemId` is the id the service assigns) and return the item. -/
def add_geojson (geojson : JVal) (itemId title tags : String) :
    List AgsEvent × String :=
  ([AgsEvent.addItem itemId title tags geojson], itemId)

/-- Trace and outcome of a modelled Python call: `result` is `.error` when
an exception propagates to the caller. -/
structure PyRun (α : Type) where
  trace : List AgsEvent
  result : Except String α

/-- Model of `append_to_layer(gis, layer, geojson)`: upload a temp item with title
"Dataminr update", try `layer.append` (outcome `appendTry`), print item and
result on success, log on failure, and delete the temp item in a `finally`
block; the `except Exception` branch falls through so the function returns
`result` (still the layer) instead of raising. -/
def append_to_layer (layer : String) (geojson : JVal) (itemId : String)
    (appendTry : Except String String) : PyRun String :=
  let added := add_geojson geojson itemId "Dataminr update" "dataminr-poc"
  match appendTry with
  | .ok r =>
      { trace := added.1 ++ [AgsEvent.appendCall added.2, AgsEvent.printOut added.2,
                             AgsEvent.printOut r, AgsEvent.deleteItem added.2],
        result := .ok r }
  | .error e =>
      { trace := added.1 ++ [AgsEvent.appendCall added.2,
                             AgsEvent.logError ("Error appending data to existing layer: " ++ e),
                             AgsEvent.deleteItem added.2],
        result := .ok layer }

/-- Model of `create_layer(gis, geojson, template_item)`: when the `try` block
(`clone_items`; `results[0]`; `item.layers[0]`) raises, the handler only
logs, and the following `return append_to_layer(gis, lyr, geojson)` reads
the local `lyr` that was never assigned, so Python raises
`UnboundLocalError` at that line (no further SDK call happens). -/
def create_layer (cloneTry : Except String String) (geojson : JVal)
    (itemId : String) (appendTry : Except String String) : PyRun String :=
  match cloneTry with
  | .ok lyr => append_to_layer lyr geojson itemId appendTry
  | .error e =>
      { trace := [AgsEvent.logError ("Error creating a new layer from template: " ++ e)],
        result := .error "UnboundLocalError: local variable lyr referenced before assignment" }

/-- Model of `delete_before(lyr, date, field)`: one `delete_features` call with the
filter `"{field} < '{date_to_ags(date)}'"`. -/
def delete_before (t : Int) (field : String) : List AgsEvent :=
  [AgsEvent.deleteFeatures (field ++ " < \x27" ++ date_to_ags t ++ "\x27")]

/-- Model of `delete_before_days(lyr, number_days, field)`: `today - timedelta(n)`
is the current instant minus `n * 86400` seconds. -/
def delete_before_days (now : Int) (number_days : Int) (field : String) :
    List AgsEvent :=
  delete_before (now - number_days * 86400) field

/-- The layer-update tail of `run`: `delete_before_days(lyr, 30,
'event_time')` followed by `append_to_layer(gis, lyr, geojson)`. -/
def run_update (now : Int) (lyr : String) (geojson : JVal) (itemId : String)
    (appendTry : Except String String) : List AgsEvent :=
  delete_before_days now 30 "event_time" ++
    (append_to_layer lyr geojson itemId appendTry).trace

def isDeleteFeaturesEvt : AgsEvent → Bool
  | .deleteFeatures _ => true
  | _ => false

/-!
## Specification-side definitions

These follow the spec's words ("first-seen-wins", "one feature per row",
field-by-field copy) and are compared against the embedded code.
-/

/-- Spec-side: the GeoJSON feature for one row (total; defined for rows
that carry the two coordinate fields). -/
def featureSpec (lon_field lat_field : String) (r : Dict) : JVal :=
  .obj [("type", .str "Feature"),
        ("geometry", .obj [("type", .str "Point"),
                           ("coordinates", .arr [(r.lookup lat_field).getD .null,
                                                 (r.lookup lon_field).getD .null])]),
        ("properties", .obj r)]

/-- Spec-side: all (alert row, list row) pairs in fetch order. -/
def fetchPairs (fetch : Dict → List Dict) : List Dict → List (Dict × Dict)
  | [] => []
  | l :: rest => (fetch l).map (fun a => (a, l)) ++ fetchPairs fetch rest

/-- Spec-side: the alert id of a fetched pair (a hashable scalar for the
rows the loop accepts). -/
def pairId (p : Dict × Dict) : JScalar :=
  ((p.1.lookup "alert_id").bind JVal.scalar?).getD JScalar.null

/-- Spec-side "first-seen-wins": keep a pair only when its alert id has
not been seen before (across lists, in fetch order). -/
def firstSeen (seen : List JScalar) : List (Dict × Dict) → List (Dict × Dict)
  | [] => []
  | p :: rest =>
      if pairId p ∈ seen then firstSeen seen rest
      else p :: firstSeen (seen ++ [pairId p]) rest

/-- Python `obj[k]` on a JSON object, as an `Option` (for claim statements). -/
def getField : JVal → String → Option JVal
  | .obj fs, k => fs.lookup k
  | _, _ => none

/-- A strictly positive JSON number (the `event_time and event_time > 0`
guard, for numeric values). -/
def isPosNum : JVal → Bool
  | .num n => decide (0 < n)
  | _ => false

/-- The shape a nested value must have (when reachable) for `alert_to_row`
not to hit an uncaught exception on that path. -/
def pathOk (o : JVal) (ks : List PyKey) (p : JVal → Bool) : Bool :=
  match lookupPath o ks with
  | .ok v => p v
  | .error PyErr.typeError => false
  | .error _ => true

/-- Truthy values must be numbers (timestamp fields). -/
def numIfTruthy (v : JVal) : Bool := !v.truthy || v.isNumB

/-- A list whose elements are all strings. -/
def strArrElems : JVal → Bool
  | .arr xs => xs.all JVal.isStrB
  | _ => false

/-- Truthy values must be lists of strings (`source.channels`). -/
def strArrIfTruthy (v : JVal) : Bool := !v.truthy || strArrElems v

/-- A list of objects each carrying a string field `sub`
(`relatedTerms`/`text`, `categories`/`name`). -/
def objsWithStrField (sub : String) : JVal → Bool
  | .arr xs => xs.all (fun t =>
      match getField t sub with
      | some (.str _) => true
      | _ => false)
  | _ => false

/-- Truthy values must be joinable lists of objects with field `sub`. -/
def joinableIfTruthy (sub : String) (v : JVal) : Bool :=
  !v.truthy || objsWithStrField sub v

/-- A well-formed Dataminr alert object: a JSON object whose optional
nested fields, when present (and, for the conditionally-processed fields,
truthy), have the shapes `alert_to_row` expects.  Real Dataminr alerts
satisfy this; outside it the function hits uncaught `TypeError`s or, for
malformed `relatedTerms`/`categories` entries, a `KeyError` unrelated to
`alertId`. -/
def wfAlert (obj : JVal) : Bool :=
  obj.isObjB
  && pathOk obj [.s "eventLocation"] JVal.isObjB
  && pathOk obj [.s "eventLocation", .s "coordinates"] JVal.isArrB
  && pathOk obj [.s "alertType"] JVal.isObjB
  && pathOk obj [.s "publisherCategory"] JVal.isObjB
  && pathOk obj [.s "post"] JVal.isObjB
  && pathOk obj [.s "source"] JVal.isObjB
  && pathOk obj [.s "eventTime"] numIfTruthy
  && pathOk obj [.s "post", .s "timestamp"] numIfTruthy
  && pathOk obj [.s "source", .s "channels"] strArrIfTruthy
  && pathOk obj [.s "relatedTerms"] (joinableIfTruthy "text")
  && pathOk obj [.s "categories"] (joinableIfTruthy "name")

/-- String content of a string value (total helper for closed forms). -/
def strValD : JVal → String
  | .str s => s
  | _ => ""

/-- Field of an object, `None` when absent (total helper). -/
def fieldValD (t : JVal) (k : String) : JVal :=
  (getField t k).getD .null

/-- Joined `','.join` of a list of strings (total helper). -/
def joinStrArr : JVal → String
  | .arr xs => String.intercalate "," (xs.map strValD)
  | _ => ""

/-- Joined `','.join([t[sub] for t in v])` (total helper). -/
def joinSubArr (sub : String) : JVal → String
  | .arr xs => String.intercalate "," (xs.map (fun t => strValD (fieldValD t sub)))
  | _ => ""

/-!
## Helper lemmas
-/

theorem ok_bind {α β : Type} (a : α) (f : α → Except PyErr β) :
    (Except.ok a >>= f) = f a := rfl

theorem error_bind {α β : Type} (e : PyErr) (f : α → Except PyErr β) :
    ((Except.error e : Except PyErr α) >>= f) = .error e := rfl

theorem extractGo_missing (required : Bool) (default : JVal) (o : JVal)
    (ks : List PyKey) (h : isMissing (lookupPath o ks) = true) :
    extractGo required default o ks =
      if required && default.isNull then .error PyErr.keyError else .ok default := by
  induction ks generalizing o with
  | nil => simp [lookupPath, isMissing] at h
  | cons k ks ih =>
      cases hj : jIndex o k with
      | ok v =>
          simp only [lookupPath, hj] at h
          simp only [extractGo, hj]
          exact ih v h
      | error e =>
          simp only [lookupPath, hj] at h
          cases e with
          | keyError => simp [extractGo, hj]
          | indexError => simp [extractGo, hj]
          | typeError => simp [isMissing] at h

/-!
## Claim theorems
-/

/-- C10: `extract` applied with an empty key list returns the object itself
unchanged, whatever `required`, `default` and `warn` are (the loop body
never runs). -/
theorem extract_empty_keys_identity (obj : JVal) (required : Bool)
    (default : JVal) (warn : Bool) :
    extract obj [] required default warn = .ok obj := rfl

/-- C9: on a missing key (`KeyError`/`IndexError` along the path),
`extract` raises `KeyError` exactly when `required` is set and the default
is `None`; otherwise it returns the default. -/
theorem extract_missing_key_behavior (obj : JVal) (keys : List PyKey)
    (required : Bool) (default : JVal) (warn : Bool)
    (h : isMissing (lookupPath obj keys) = true) :
    extract obj keys required default warn =
      if required && default.isNull then .error PyErr.keyError else .ok default :=
  extractGo_missing required default obj keys h

theorem extract_missing_key_behavior_witness :
    isMissing (lookupPath (.obj []) [.s "x"]) = true ∧
    extract (.obj []) [.s "x"] true .null false = .error PyErr.keyError ∧
    extract (.obj []) [.s "x"] true (.num 7) false = .ok (.num 7) ∧
    extract (.obj []) [.s "x"] false .null false = .ok .null := by
  refine ⟨rfl, ?_, ?_, ?_⟩
  · exact (extract_missing_key_behavior (.obj []) [.s "x"] true .null false rfl).trans (by rfl)
  · exact (extract_missing_key_behavior (.obj []) [.s "x"] true (.num 7) false rfl).trans (by rfl)
  · exact (extract_missing_key_behavior (.obj []) [.s "x"] false .null false rfl).trans (by rfl)

/-- C2 (code bug): on the row `{'lon': 1, 'lat': 2}` — as produced by
`run`, which calls `rows_to_geojson(alerts, 'lon', 'lat')` — the feature's
coordinates come out as `[2, 1]`, i.e. `[latitude, longitude]`, because the
source builds `[row[lat_field], row[lon_field]]`; GeoJSON (and the claim)
require `[longitude, latitude]` = `[1, 2]`. -/
theorem row_to_geojson_swaps_lon_lat :
    row_to_geojson [("lon", .num 1), ("lat", .num 2)] "lon" "lat" =
      .ok (.obj [("type", .str "Feature"),
                 ("geometry", .obj [("type", .str "Point"),
                                    ("coordinates", .arr [.num 2, .num 1])]),
                 ("properties", .obj [("lon", .num 1), ("lat", .num 2)])]) := rfl

/-- C7: when the `try` block of `create_layer` fails (modelled by
`cloneTry = .error e`), the function logs the error and then fails with an
unbound-local error on `lyr` — it does not return a handled result and
performs no further call. -/
theorem create_layer_unbound_lyr_on_clone_failure (e : String) (geojson : JVal)
    (itemId : String) (appendTry : Except String String) :
    (create_layer (.error e) geojson itemId appendTry).result =
      .error "UnboundLocalError: local variable lyr referenced before assignment" ∧
    (create_layer (.error e) geojson itemId appendTry).trace =
      [AgsEvent.logError ("Error creating a new layer from template: " ++ e)] :=
  ⟨rfl, rfl⟩

/-- C5: `delete_before_days` issues exactly one delete call whose filter is
`"{field} < '{d}'"` with `d` the current instant minus `n` days rendered in
UTC as `MM/DD/YYYY HH:MM:SS`; `run` performs exactly this deletion with a
30-day window on `event_time`, ahead of the append of new features. -/
theorem delete_retention_window_filter (now n : Int) (field lyr : String)
    (geojson : JVal) (itemId : String) (appendTry : Except String String) :
    delete_before_days now n field =
      [AgsEvent.deleteFeatures (field ++ " < \x27" ++ date_to_ags (now - n * 86400) ++ "\x27")] ∧
    run_update now lyr geojson itemId appendTry =
      AgsEvent.deleteFeatures ("event_time < \x27" ++ date_to_ags (now - 30 * 86400) ++ "\x27") ::
        (append_to_layer lyr geojson itemId appendTry).trace ∧
    (run_update now lyr geojson itemId appendTry).filter isDeleteFeaturesEvt =
      [AgsEvent.deleteFeatures ("event_time < \x27" ++ date_to_ags (now - 30 * 86400) ++ "\x27")] := by
  refine ⟨rfl, rfl, ?_⟩
  cases appendTry <;>
    simp [run_update, delete_before_days, delete_before, append_to_layer,
      add_geojson, isDeleteFeaturesEvt, List.filter]

/-- C6: `append_to_layer` first uploads the GeoJSON as a temporary item,
attempts the append, deletes the temporary item whether the append
succeeded or raised, and on failure logs the error and returns the layer
object normally instead of propagating the exception. -/
theorem append_to_layer_temp_item_lifecycle (layer : String) (geojson : JVal)
    (itemId : String) (appendTry : Except String String) :
    (append_to_layer layer geojson itemId appendTry).trace.head? =
      some (AgsEvent.addItem itemId "Dataminr update" "dataminr-poc" geojson) ∧
    AgsEvent.deleteItem itemId ∈ (append_to_layer layer geojson itemId appendTry).trace ∧
    AgsEvent.appendCall itemId ∈ (append_to_layer layer geojson itemId appendTry).trace ∧
    (∃ v, (append_to_layer layer geojson itemId appendTry).result = .ok v) ∧
    (∀ e, appendTry = .error e →
      (append_to_layer layer geojson itemId appendTry).result = .ok layer ∧
      AgsEvent.logError ("Error appending data to existing layer: " ++ e) ∈
        (append_to_layer layer geojson itemId appendTry).trace) := by
  cases appendTry with
  | ok r =>
      refine ⟨rfl, ?_, ?_, ⟨r, rfl⟩, ?_⟩ <;>
        simp [append_to_layer, add_geojson]
  | error e =>
      refine ⟨rfl, ?_, ?_, ⟨layer, rfl⟩, ?_⟩ <;>
        simp [append_to_layer, add_geojson]

theorem append_to_layer_temp_item_lifecycle_witness :
    (append_to_layer "lyr0" .null "tmp1" (.error "boom")).result = .ok "lyr0" ∧
    AgsEvent.deleteItem "tmp1" ∈ (append_to_layer "lyr0" .null "tmp1" (.error "boom")).trace := by
  have h := append_to_layer_temp_item_lifecycle "lyr0" .null "tmp1" (.error "boom")
  exact ⟨(h.2.2.2.2 "boom" rfl).1, h.2.1⟩

theorem row_to_geojson_ok (r : Dict) (lonF latF : String)
    (h1 : (r.lookup lonF).isSome = true) (h2 : (r.lookup latF).isSome = true) :
    row_to_geojson r lonF latF = .ok (featureSpec lonF latF r) := by
  obtain ⟨a, ha⟩ := Option.isSome_iff_exists.mp h1
  obtain ⟨b, hb⟩ := Option.isSome_iff_exists.mp h2
  simp [row_to_geojson, getItem, ha, hb, featureSpec, ok_bind]

theorem mapM_row_to_geojson (rows : List Dict) (lonF latF : String)
    (h : ∀ r ∈ rows, (r.lookup lonF).isSome = true ∧ (r.lookup latF).isSome = true) :
    rows.mapM (fun r => row_to_geojson r lonF latF) =
      .ok (rows.map (featureSpec lonF latF)) := by
  induction rows with
  | nil => rfl
  | cons r rest ih =>
      have hr := h r (List.mem_cons_self r rest)
      rw [List.mapM_cons, row_to_geojson_ok r lonF latF hr.1 hr.2,
        ih (fun x hx => h x (List.mem_cons_of_mem r hx))]
      rfl

/-- C3: for rows carrying the two coordinate fields, `rows_to_geojson`
returns a FeatureCollection with exactly one feature per row, in input
order, and each feature's `properties` is the field-by-field copy of its
row (`featureSpec` makes the per-row feature, with `properties = row`,
explicit). -/
theorem rows_to_geojson_feature_collection (rows : List Dict)
    (lon_field lat_field : String)
    (h : ∀ r ∈ rows, (r.lookup lon_field).isSome = true ∧
         (r.lookup lat_field).isSome = true) :
    rows_to_geojson rows lon_field lat_field =
      .ok (.obj [("type", .str "FeatureCollection"),
                 ("features", .arr (rows.map (featureSpec lon_field lat_field)))]) ∧
    (rows.map (featureSpec lon_field lat_field)).length = rows.length := by
  constructor
  · rw [rows_to_geojson, mapM_row_to_geojson rows lon_field lat_field h]
    rfl
  · exact List.length_map rows _

theorem rows_to_geojson_feature_collection_witness :
    rows_to_geojson [[("lon", .num 1), ("lat", .num 2), ("caption", .str "c")]] "lon" "lat" =
      .ok (.obj [("type", .str "FeatureCollection"),
                 ("features", .arr ([[("lon", .num 1), ("lat", .num 2), ("caption", .str "c")]].map
                    (featureSpec "lon" "lat")))]) := by
  refine (rows_to_geojson_feature_collection _ "lon" "lat" ?_).1
  intro r hr
  rcases List.mem_cons.mp hr with rfl | hr
  · exact ⟨rfl, rfl⟩
  · cases hr

/-- C8: `get_lists` flattens the TOPIC, COMPANY and CUSTOM watchlists, in
that order, one row per watchlist; a category absent from the response
extracts to the `[]` default (the hypotheses hold with the empty list in
that case) rather than failing. -/
theorem get_lists_concat_categories (j : JVal) (ts cs us : List JVal)
    (hT : d_extract j "watchlists.TOPIC" false (.arr []) false = .ok (.arr ts))
    (hC : d_extract j "watchlists.COMPANY" false (.arr []) false = .ok (.arr cs))
    (hU : d_extract j "watchlists.CUSTOM" false (.arr []) false = .ok (.arr us)) :
    get_lists j = (ts ++ cs ++ us).mapM list_to_row := by
  simp [get_lists, hT, hC, hU, pyConcatLists, List.append_assoc, ok_bind]

theorem get_lists_concat_categories_witness :
    get_lists (.obj [("watchlists",
        .obj [("TOPIC", .arr [.obj [("id", .num 1), ("name", .str "t")]])])]) =
      (([JVal.obj [("id", JVal.num 1), ("name", JVal.str "t")]] : List JVal) ++ [] ++ []).mapM
        list_to_row :=
  get_lists_concat_categories
    (JVal.obj [("watchlists",
        JVal.obj [("TOPIC", JVal.arr [JVal.obj [("id", JVal.num 1), ("name", JVal.str "t")]])])])
    [JVal.obj [("id", JVal.num 1), ("name", JVal.str "t")]] [] [] rfl rfl rfl

theorem firstSeen_append (seen : List JScalar) (xs ys : List (Dict × Dict)) :
    firstSeen seen (xs ++ ys) =
      firstSeen seen xs ++
        firstSeen (seen ++ (firstSeen seen xs).map pairId) ys := by
  induction xs generalizing seen with
  | nil => simp [firstSeen]
  | cons x xs ih =>
      by_cases hx : pairId x ∈ seen
      · simp [firstSeen, hx, ih]
      · simp only [List.cons_append, firstSeen, hx, if_false, List.map_cons,
          List.append_eq]
        rw [ih (seen ++ [pairId x])]
        simp [List.append_assoc]

theorem alertLoop_spec (l : Dict) (as : List Dict) (acc : List Dict)
    (seen : List JScalar)
    (hA : ∀ a ∈ as, ((a.lookup "alert_id").bind JVal.scalar?).isSome = true) :
    alertLoop l as (acc, seen) = .ok
      (acc ++ (firstSeen seen (as.map (fun a => (a, l)))).map
         (fun p => dictMerge p.1 p.2),
       seen ++ (firstSeen seen (as.map (fun a => (a, l)))).map pairId) := by
  induction as generalizing acc seen with
  | nil => simp [alertLoop, firstSeen]
  | cons a rest ih =>
      have ha := hA a (List.mem_cons_self a rest)
      cases hl : a.lookup "alert_id" with
      | none => rw [hl] at ha; simp at ha
      | some v =>
          cases hs : v.scalar? with
          | none => rw [hl] at ha; simp [hs] at ha
          | some aid =>
              have hid : pairId (a, l) = aid := by simp [pairId, hl, hs]
              have ihr := fun acc2 seen2 =>
                ih acc2 seen2
              by_cases hmem : aid ∈ seen
              · rw [List.map_cons]
                rw [show firstSeen seen ((a, l) :: rest.map (fun a => (a, l))) =
                    firstSeen seen (rest.map (fun a => (a, l))) by
                  simp [firstSeen, hid, hmem]]
                rw [show alertLoop l (a :: rest) (acc, seen) =
                    alertLoop l rest (acc, seen) by
                  simp [alertLoop, getItem, hl, hs, ok_bind, hmem]]
                exact ih acc seen (fun x hx => hA x (List.mem_cons_of_mem a hx))
              · rw [List.map_cons]
                rw [show firstSeen seen ((a, l) :: rest.map (fun a => (a, l))) =
                    (a, l) :: firstSeen (seen ++ [aid]) (rest.map (fun a => (a, l))) by
                  simp [firstSeen, hid, hmem]]
                rw [show alertLoop l (a :: rest) (acc, seen) =
                    alertLoop l rest (acc ++ [dictMerge a l], seen ++ [aid]) by
                  simp [alertLoop, getItem, hl, hs, ok_bind, hmem]]
                rw [ih (acc ++ [dictMerge a l]) (seen ++ [aid])
                  (fun x hx => hA x (List.mem_cons_of_mem a hx))]
                simp [hid, List.append_assoc]

theorem listLoop_spec (fetch : Dict → List Dict) (lists : List Dict)
    (acc : List Dict) (seen : List JScalar)
    (hL : ∀ l ∈ lists, (l.lookup "list_id").isSome = true)
    (hA : ∀ l ∈ lists, ∀ a ∈ fetch l,
      ((a.lookup "alert_id").bind JVal.scalar?).isSome = true) :
    listLoop fetch lists (acc, seen) = .ok
      (acc ++ (firstSeen seen (fetchPairs fetch lists)).map
         (fun p => dictMerge p.1 p.2),
       seen ++ (firstSeen seen (fetchPairs fetch lists)).map pairId) := by
  induction lists generalizing acc seen with
  | nil => simp [listLoop, fetchPairs, firstSeen]
  | cons l rest ih =>
      have hl := hL l (List.mem_cons_self l rest)
      obtain ⟨lid, hlid⟩ := Option.isSome_iff_exists.mp hl
      have hstep : listLoop fetch (l :: rest) (acc, seen) =
          listLoop fetch rest
            (acc ++ (firstSeen seen ((fetch l).map (fun a => (a, l)))).map
               (fun p => dictMerge p.1 p.2),
             seen ++ (firstSeen seen ((fetch l).map (fun a => (a, l)))).map pairId) := by
        simp [listLoop, getItem, hlid, ok_bind,
          alertLoop_spec l (fetch l) acc seen (hA l (List.mem_cons_self l rest))]
      rw [hstep, ih _ _ (fun x hx => hL x (List.mem_cons_of_mem l hx))
        (fun x hx => hA x (List.mem_cons_of_mem l hx))]
      rw [show fetchPairs fetch (l :: rest) =
          (fetch l).map (fun a => (a, l)) ++ fetchPairs fetch rest from rfl]
      rw [firstSeen_append]
      simp [List.append_assoc]

/-- C1: the collection loop of `run` keeps exactly the first occurrence of
each alert id across lists in fetch order (`firstSeen`, first-seen-wins),
and each kept row is the alert row dict-merged with the row of the first
list from which that alert was returned (`{**a, **l}`, whose fields are
`list_id`, `list_name`, `list_color` for rows built by `list_to_row`). -/
theorem run_dedup_first_seen_wins (lists : List Dict) (fetch : Dict → List Dict)
    (hL : ∀ l ∈ lists, (l.lookup "list_id").isSome = true)
    (hA : ∀ l ∈ lists, ∀ a ∈ fetch l,
      ((a.lookup "alert_id").bind JVal.scalar?).isSome = true) :
    run_dedup lists fetch = .ok
      ((firstSeen [] (fetchPairs fetch lists)).map (fun p => dictMerge p.1 p.2),
       (firstSeen [] (fetchPairs fetch lists)).map pairId) := by
  have h := listLoop_spec fetch lists [] [] hL hA
  simpa [run_dedup] using h

theorem run_dedup_first_seen_wins_witness :
    run_dedup
      [[("list_id", JVal.num 1), ("list_name", JVal.str "A"), ("list_color", JVal.str "red")],
       [("list_id", JVal.num 2), ("list_name", JVal.str "B"), ("list_color", JVal.str "blue")]]
      (fun l => match l.lookup "list_id" with
        | some (JVal.num 1) => [[("alert_id", JVal.str "x"), ("caption", JVal.str "c1")]]
        | _ => [[("alert_id", JVal.str "x"), ("caption", JVal.str "c2")],
                [("alert_id", JVal.str "y")]]) =
      .ok
        ((firstSeen [] (fetchPairs
            (fun l => match l.lookup "list_id" with
              | some (JVal.num 1) => [[("alert_id", JVal.str "x"), ("caption", JVal.str "c1")]]
              | _ => [[("alert_id", JVal.str "x"), ("caption", JVal.str "c2")],
                      [("alert_id", JVal.str "y")]])
            [[("list_id", JVal.num 1), ("list_name", JVal.str "A"), ("list_color", JVal.str "red")],
             [("list_id", JVal.num 2), ("list_name", JVal.str "B"), ("list_color", JVal.str "blue")]])).map
           (fun p => dictMerge p.1 p.2),
         (firstSeen [] (fetchPairs
            (fun l => match l.lookup "list_id" with
              | some (JVal.num 1) => [[("alert_id", JVal.str "x"), ("caption", JVal.str "c1")]]
              | _ => [[("alert_id", JVal.str "x"), ("caption", JVal.str "c2")],
                      [("alert_id", JVal.str "y")]])
            [[("list_id", JVal.num 1), ("list_name", JVal.str "A"), ("list_color", JVal.str "red")],
             [("list_id", JVal.num 2), ("list_name", JVal.str "B"), ("list_color", JVal.str "blue")]])).map
           pairId) := by
  refine run_dedup_first_seen_wins _ _ ?_ ?_
  · intro l hl
    rcases List.mem_cons.mp hl with rfl | hl
    · rfl
    rcases List.mem_cons.mp hl with rfl | hl
    · rfl
    cases hl
  · intro l hl a ha
    rcases List.mem_cons.mp hl with rfl | hl
    · rcases List.mem_cons.mp ha with rfl | ha
      · rfl
      cases ha
    rcases List.mem_cons.mp hl with rfl | hl
    · rcases List.mem_cons.mp ha with rfl | ha
      · rfl
      rcases List.mem_cons.mp ha with rfl | ha
      · rfl
      cases ha
    cases hl

theorem extractGo_opt (o : JVal) (ks : List PyKey)
    (h : lookupPath o ks ≠ .error PyErr.typeError) :
    extractGo false .null o ks = .ok (optAt o ks) := by
  induction ks generalizing o with
  | nil => rfl
  | cons k ks ih =>
      cases hj : jIndex o k with
      | ok v =>
          have h2 : lookupPath v ks ≠ .error PyErr.typeError := by
            simp only [lookupPath, hj] at h
            exact h
          have hopt : optAt o (k :: ks) = optAt v ks := by
            simp [optAt, lookupPath, hj]
          simp only [extractGo, hj, hopt]
          exact ih v h2
      | error e =>
          cases e with
          | typeError => exact absurd (by simp [lookupPath, hj]) h
          | keyError => simp [extractGo, hj, optAt, lookupPath]
          | indexError => simp [extractGo, hj, optAt, lookupPath]

theorem extract_opt (o : JVal) (ks : List PyKey) (w : Bool)
    (h : lookupPath o ks ≠ .error PyErr.typeError) :
    extract o ks false .null w = .ok (optAt o ks) :=
  extractGo_opt o ks h

theorem extract_single (fs : List (String × JVal)) (k : String) (r : Bool)
    (d : JVal) (w : Bool) :
    extract (.obj fs) [.s k] r d w =
      match fs.lookup k with
      | some v => .ok v
      | none => if r && d.isNull then .error PyErr.keyError else .ok d := by
  cases h : fs.lookup k <;> simp [extract, extractGo, jIndex, h]

theorem lookupPath_single_ne_typeError (fs : List (String × JVal)) (k : String) :
    lookupPath (.obj fs) [.s k] ≠ .error PyErr.typeError := by
  cases h : fs.lookup k <;> simp [lookupPath, jIndex, h]

theorem lookupPath_two_ne_typeError (fs : List (String × JVal)) (k₁ k₂ : String)
    (h : pathOk (.obj fs) [.s k₁] JVal.isObjB = true) :
    lookupPath (.obj fs) [.s k₁, .s k₂] ≠ .error PyErr.typeError := by
  cases hl : fs.lookup k₁ with
  | none => simp [lookupPath, jIndex, hl]
  | some v =>
      have hobj : v.isObjB = true := by
        simpa [pathOk, lookupPath, jIndex, hl] using h
      cases v with
      | obj gs =>
          have := lookupPath_single_ne_typeError gs k₂
          simpa [lookupPath, jIndex, hl] using this
      | null => simp [JVal.isObjB] at hobj
      | bool b => simp [JVal.isObjB] at hobj
      | num n => simp [JVal.isObjB] at hobj
      | str s => simp [JVal.isObjB] at hobj
      | arr xs => simp [JVal.isObjB] at hobj

theorem jIndex_arr_ne_typeError (xs : List JVal) (n : Int) :
    jIndex (.arr xs) (.i n) ≠ .error PyErr.typeError := by
  simp only [jIndex]
  split <;> split <;> simp

theorem lookupPath_cons_ok {o v : JVal} {k : PyKey} (ks : List PyKey)
    (h : jIndex o k = .ok v) : lookupPath o (k :: ks) = lookupPath v ks := by
  simp [lookupPath, h]

theorem lookupPath_coords_ne_typeError (fs : List (String × JVal))
    (hEL : pathOk (.obj fs) [.s "eventLocation"] JVal.isObjB = true)
    (hC : pathOk (.obj fs) [.s "eventLocation", .s "coordinates"] JVal.isArrB = true)
    (n : Int) :
    lookupPath (.obj fs) [.s "eventLocation", .s "coordinates", .i n] ≠
      .error PyErr.typeError := by
  cases hl : fs.lookup "eventLocation" with
  | none => simp [lookupPath, jIndex, hl]
  | some v =>
      have hobj : v.isObjB = true := by
        simpa [pathOk, lookupPath, jIndex, hl] using hEL
      cases v with
      | obj gs =>
          rw [lookupPath_cons_ok _ (show jIndex (JVal.obj fs) (PyKey.s "eventLocation") =
            .ok (JVal.obj gs) by simp [jIndex, hl])]
          cases hg : gs.lookup "coordinates" with
          | none => simp [lookupPath, jIndex, hg]
          | some c =>
              have harr : c.isArrB = true := by
                simpa [pathOk, lookupPath, jIndex, hl, hg] using hC
              cases c with
              | arr xs =>
                  rw [lookupPath_cons_ok _ (show jIndex (JVal.obj gs) (PyKey.s "coordinates") =
                    .ok (JVal.arr xs) by simp [jIndex, hg])]
                  have hne := jIndex_arr_ne_typeError xs n
                  cases hj : jIndex (.arr xs) (.i n) with
                  | ok u => simp [lookupPath, hj]
                  | error e =>
                      rw [hj] at hne
                      simp only [lookupPath, hj]
                      simpa using hne
              | null => simp [JVal.isArrB] at harr
              | bool b => simp [JVal.isArrB] at harr
              | num m => simp [JVal.isArrB] at harr
              | str t => simp [JVal.isArrB] at harr
              | obj hs => simp [JVal.isArrB] at harr
      | null => simp [JVal.isObjB] at hobj
      | bool b => simp [JVal.isObjB] at hobj
      | num m => simp [JVal.isObjB] at hobj
      | str t => simp [JVal.isObjB] at hobj
      | arr ys => simp [JVal.isObjB] at hobj

theorem pathOk_optAt (o : JVal) (ks : List PyKey) (p : JVal → Bool)
    (h : pathOk o ks p = true) (hnull : p .null = true) :
    p (optAt o ks) = true := by
  cases hl : lookupPath o ks with
  | ok v =>
      rw [show optAt o ks = v by simp [optAt, hl]]
      simpa [pathOk, hl] using h
  | error e =>
      rw [show optAt o ks = .null by simp [optAt, hl]]
      exact hnull

theorem optAt_of_missing (o : JVal) (ks : List PyKey)
    (h : isMissing (lookupPath o ks) = true) : optAt o ks = .null := by
  cases hl : lookupPath o ks with
  | ok v => rw [hl] at h; simp [isMissing] at h
  | error e => simp [optAt, hl]

theorem optAt_of_absent (fs : List (String × JVal)) (k : String)
    (h : fs.lookup k = none) : optAt (.obj fs) [.s k] = .null := by
  simp [optAt, lookupPath, jIndex, h]

theorem mapM_asStr (xs : List JVal) (h : xs.all JVal.isStrB = true) :
    xs.mapM asStr = .ok (xs.map strValD) := by
  induction xs with
  | nil => rfl
  | cons x rest ih =>
      rw [List.all_cons, Bool.and_eq_true] at h
      cases x with
      | str s =>
          rw [List.mapM_cons, ih h.2]
          simp [asStr, strValD, ok_bind]
      | null => simp [JVal.isStrB] at h
      | bool b => simp [JVal.isStrB] at h
      | num n => simp [JVal.isStrB] at h
      | arr ys => simp [JVal.isStrB] at h
      | obj gs => simp [JVal.isStrB] at h

theorem mapM_subfield (xs : List JVal) (sub : String)
    (h : xs.all (fun t =>
      match getField t sub with
      | some (.str _) => true
      | _ => false) = true) :
    xs.mapM (fun t => jIndex t (.s sub)) = .ok (xs.map (fun t => fieldValD t sub)) := by
  induction xs with
  | nil => rfl
  | cons x rest ih =>
      rw [List.all_cons, Bool.and_eq_true] at h
      have hx := h.1
      cases x with
      | obj gs =>
          cases hg : gs.lookup sub with
          | none => simp [getField, hg] at hx
          | some u =>
              cases u with
              | str s =>
                  rw [List.mapM_cons, ih h.2]
                  simp [jIndex, hg, fieldValD, getField, ok_bind]
              | null => simp [getField, hg] at hx
              | bool b => simp [getField, hg] at hx
              | num n => simp [getField, hg] at hx
              | arr ys => simp [getField, hg] at hx
              | obj hs => simp [getField, hg] at hx
      | null => simp [getField] at hx
      | bool b => simp [getField] at hx
      | num n => simp [getField] at hx
      | str s => simp [getField] at hx
      | arr ys => simp [getField] at hx

theorem pure_eq_ok {α : Type} (a : α) : (pure a : Except PyErr α) = .ok a := rfl

theorem pyJoinComma_strArr (xs : List JVal) (h : xs.all JVal.isStrB = true) :
    pyJoinComma (.arr xs) = .ok (joinStrArr (.arr xs)) := by
  simp only [pyJoinComma]
  rw [mapM_asStr _ h]
  simp [joinStrArr]

theorem addTimeField_spec (props : Dict) (key : String) (v : JVal)
    (hv : numIfTruthy v = true) :
    addTimeField props key v =
      .ok (props ++ (if isPosNum v then
        [(key, .str (timestamp_to_ags (pyToMsVal v)))] else [])) := by
  cases v with
  | null => simp [addTimeField, JVal.truthy, isPosNum, pure_eq_ok]
  | bool b =>
      cases b with
      | false => simp [addTimeField, JVal.truthy, isPosNum, pure_eq_ok]
      | true => simp [numIfTruthy, JVal.truthy, JVal.isNumB] at hv
  | num n =>
      by_cases hn : n = 0
      · subst hn; simp [addTimeField, JVal.truthy, isPosNum, pure_eq_ok]
      · by_cases hp : 0 < n <;>
          simp [addTimeField, JVal.truthy, hn, pyGtZeroTest, ok_bind, isPosNum,
            hp, pure_eq_ok]
  | str s =>
      by_cases hs : s = ""
      · subst hs; simp [addTimeField, JVal.truthy, isPosNum, pure_eq_ok]
      · simp [numIfTruthy, JVal.truthy, JVal.isNumB, hs] at hv
  | arr xs =>
      cases xs with
      | nil => simp [addTimeField, JVal.truthy, isPosNum, pure_eq_ok]
      | cons y ys => simp [numIfTruthy, JVal.truthy, JVal.isNumB] at hv
  | obj gs =>
      cases gs with
      | nil => simp [addTimeField, JVal.truthy, isPosNum, pure_eq_ok]
      | cons g hs => simp [numIfTruthy, JVal.truthy, JVal.isNumB] at hv

theorem addSourceField_spec (props : Dict) (v : JVal)
    (hv : strArrIfTruthy v = true) :
    addSourceField props v =
      .ok (props ++ (if v.truthy then [("source", .str (joinStrArr v))] else [])) := by
  cases v with
  | null => simp [addSourceField, JVal.truthy, pure_eq_ok]
  | bool b =>
      cases b with
      | false => simp [addSourceField, JVal.truthy, pure_eq_ok]
      | true => simp [strArrIfTruthy, JVal.truthy, strArrElems] at hv
  | num n =>
      by_cases hn : n = 0
      · subst hn; simp [addSourceField, JVal.truthy, pure_eq_ok]
      · simp [strArrIfTruthy, JVal.truthy, strArrElems, hn] at hv
  | str s =>
      by_cases hs : s = ""
      · subst hs; simp [addSourceField, JVal.truthy, pure_eq_ok]
      · simp [strArrIfTruthy, JVal.truthy, strArrElems, hs] at hv
  | arr xs =>
      cases xs with
      | nil => simp [addSourceField, JVal.truthy, pure_eq_ok]
      | cons y ys =>
          have hall : (y :: ys).all JVal.isStrB = true := by
            simpa [strArrIfTruthy, JVal.truthy, strArrElems] using hv
          simp [addSourceField, JVal.truthy, pyJoinComma_strArr _ hall, ok_bind,
            pure_eq_ok]
  | obj gs =>
      cases gs with
      | nil => simp [addSourceField, JVal.truthy, pure_eq_ok]
      | cons g hs => simp [strArrIfTruthy, JVal.truthy, strArrElems] at hv

theorem addJoinedSubfield_spec (props : Dict) (key sub : String) (v : JVal)
    (hv : joinableIfTruthy sub v = true) :
    addJoinedSubfield props key sub v =
      .ok (props ++ (if v.truthy then [(key, .str (joinSubArr sub v))] else [])) := by
  cases v with
  | null => simp [addJoinedSubfield, JVal.truthy, pure_eq_ok]
  | bool b =>
      cases b with
      | false => simp [addJoinedSubfield, JVal.truthy, pure_eq_ok]
      | true => simp [joinableIfTruthy, JVal.truthy, objsWithStrField] at hv
  | num n =>
      by_cases hn : n = 0
      · subst hn; simp [addJoinedSubfield, JVal.truthy, pure_eq_ok]
      · simp [joinableIfTruthy, JVal.truthy, objsWithStrField, hn] at hv
  | str s =>
      by_cases hs : s = ""
      · subst hs; simp [addJoinedSubfield, JVal.truthy, pure_eq_ok]
      · simp [joinableIfTruthy, JVal.truthy, objsWithStrField, hs] at hv
  | arr xs =>
      cases xs with
      | nil => simp [addJoinedSubfield, JVal.truthy, pure_eq_ok]
      | cons y ys =>
          have hall : (y :: ys).all (fun t =>
              match getField t sub with
              | some (.str _) => true
              | _ => false) = true := by
            simpa [joinableIfTruthy, JVal.truthy, objsWithStrField] using hv
          have hstr : ((y :: ys).map (fun t => fieldValD t sub)).all JVal.isStrB = true := by
            rw [List.all_map]
            refine List.all_eq_true.mpr ?_
            intro t ht
            have hx := List.all_eq_true.mp hall t ht
            cases hg : getField t sub with
            | none => rw [hg] at hx; simp at hx
            | some u =>
                rw [hg] at hx
                cases u with
                | str w => simp [Function.comp, fieldValD, hg, JVal.isStrB]
                | null => simp at hx
                | bool b => simp at hx
                | num n => simp at hx
                | arr zs => simp at hx
                | obj ws => simp at hx
          simp only [addJoinedSubfield, JVal.truthy, List.isEmpty_cons,
            Bool.not_false, if_true]
          rw [show pyIter (JVal.arr (y :: ys)) = .ok (y :: ys) from rfl, ok_bind]
          rw [mapM_subfield _ sub hall, ok_bind]
          rw [mapM_asStr _ hstr]
          simp [joinSubArr, List.map_map, Function.comp_def, pure_eq_ok, ok_bind]
  | obj gs =>
      cases gs with
      | nil => simp [addJoinedSubfield, JVal.truthy, pure_eq_ok]
      | cons g hs => simp [joinableIfTruthy, JVal.truthy, objsWithStrField] at hv

theorem dictLookup_append (l₁ l₂ : Dict) (k : String) :
    (l₁ ++ l₂).lookup k = (l₁.lookup k).or (l₂.lookup k) := by
  induction l₁ with
  | nil => simp [List.lookup, Option.or]
  | cons p l₁ ih =>
      obtain ⟨a, b⟩ := p
      cases h : k == a <;> simp [List.lookup, h, ih, Option.or]

theorem lookup_ite_single (c : Bool) (k key : String) (v : JVal) :
    (if c then ([(k, v)] : Dict) else []).lookup key =
      if c && (key == k) then some v else none := by
  cases c <;> cases h : key == k <;> simp [List.lookup, h]

theorem baseProps_alert_id (a1 a2 a3 a4 a5 a6 a7 a8 a9 a10 a11 a12 a13 : JVal) :
    (baseProps a1 a2 a3 a4 a5 a6 a7 a8 a9 a10 a11 a12 a13).lookup "alert_id" = some a1 := rfl

theorem baseProps_place (a1 a2 a3 a4 a5 a6 a7 a8 a9 a10 a11 a12 a13 : JVal) :
    (baseProps a1 a2 a3 a4 a5 a6 a7 a8 a9 a10 a11 a12 a13).lookup "place" = some a2 := rfl

theorem baseProps_caption (a1 a2 a3 a4 a5 a6 a7 a8 a9 a10 a11 a12 a13 : JVal) :
    (baseProps a1 a2 a3 a4 a5 a6 a7 a8 a9 a10 a11 a12 a13).lookup "caption" = some a5 := rfl

theorem baseProps_lon (a1 a2 a3 a4 a5 a6 a7 a8 a9 a10 a11 a12 a13 : JVal) :
    (baseProps a1 a2 a3 a4 a5 a6 a7 a8 a9 a10 a11 a12 a13).lookup "lon" = some a12 := rfl

theorem baseProps_lat (a1 a2 a3 a4 a5 a6 a7 a8 a9 a10 a11 a12 a13 : JVal) :
    (baseProps a1 a2 a3 a4 a5 a6 a7 a8 a9 a10 a11 a12 a13).lookup "lat" = some a13 := rfl

theorem baseProps_event_time (a1 a2 a3 a4 a5 a6 a7 a8 a9 a10 a11 a12 a13 : JVal) :
    (baseProps a1 a2 a3 a4 a5 a6 a7 a8 a9 a10 a11 a12 a13).lookup "event_time" = none := rfl

theorem baseProps_post_time (a1 a2 a3 a4 a5 a6 a7 a8 a9 a10 a11 a12 a13 : JVal) :
    (baseProps a1 a2 a3 a4 a5 a6 a7 a8 a9 a10 a11 a12 a13).lookup "post_time" = none := rfl

theorem baseProps_source (a1 a2 a3 a4 a5 a6 a7 a8 a9 a10 a11 a12 a13 : JVal) :
    (baseProps a1 a2 a3 a4 a5 a6 a7 a8 a9 a10 a11 a12 a13).lookup "source" = none := rfl

theorem baseProps_related_terms (a1 a2 a3 a4 a5 a6 a7 a8 a9 a10 a11 a12 a13 : JVal) :
    (baseProps a1 a2 a3 a4 a5 a6 a7 a8 a9 a10 a11 a12 a13).lookup "related_terms" = none := rfl

theorem baseProps_categories (a1 a2 a3 a4 a5 a6 a7 a8 a9 a10 a11 a12 a13 : JVal) :
    (baseProps a1 a2 a3 a4 a5 a6 a7 a8 a9 a10 a11 a12 a13).lookup "categories" = none := rfl

theorem alert_to_row_closed (fs : List (String × JVal)) (aid : JVal)
    (haid : fs.lookup "alertId" = some aid)
    (hEL : pathOk (.obj fs) [.s "eventLocation"] JVal.isObjB = true)
    (hCoord : pathOk (.obj fs) [.s "eventLocation", .s "coordinates"] JVal.isArrB = true)
    (hAT : pathOk (.obj fs) [.s "alertType"] JVal.isObjB = true)
    (hPC : pathOk (.obj fs) [.s "publisherCategory"] JVal.isObjB = true)
    (hPost : pathOk (.obj fs) [.s "post"] JVal.isObjB = true)
    (hSrc : pathOk (.obj fs) [.s "source"] JVal.isObjB = true)
    (hET : pathOk (.obj fs) [.s "eventTime"] numIfTruthy = true)
    (hPT : pathOk (.obj fs) [.s "post", .s "timestamp"] numIfTruthy = true)
    (hCh : pathOk (.obj fs) [.s "source", .s "channels"] strArrIfTruthy = true)
    (hRT : pathOk (.obj fs) [.s "relatedTerms"] (joinableIfTruthy "text") = true)
    (hCat : pathOk (.obj fs) [.s "categories"] (joinableIfTruthy "name") = true) :
    alert_to_row (.obj fs) = .ok
      (baseProps aid
        (optAt (.obj fs) [.s "eventLocation", .s "name"])
        (optAt (.obj fs) [.s "alertType", .s "name"])
        (optAt (.obj fs) [.s "alertType", .s "color"])
        (optAt (.obj fs) [.s "caption"])
        (optAt (.obj fs) [.s "publisherCategory", .s "name"])
        (optAt (.obj fs) [.s "publisherCategory", .s "color"])
        (optAt (.obj fs) [.s "relatedTermsQueryURL"])
        (optAt (.obj fs) [.s "expandAlertURL"])
        (optAt (.obj fs) [.s "post", .s "text"])
        (optAt (.obj fs) [.s "post", .s "translatedText"])
        (optAt (.obj fs) [.s "eventLocation", .s "coordinates", .i 0])
        (optAt (.obj fs) [.s "eventLocation", .s "coordinates", .i 1])
      ++ (if isPosNum (optAt (.obj fs) [.s "eventTime"]) then
            [("event_time", .str (timestamp_to_ags (pyToMsVal (optAt (.obj fs) [.s "eventTime"]))))]
          else [])
      ++ (if isPosNum (optAt (.obj fs) [.s "post", .s "timestamp"]) then
            [("post_time", .str (timestamp_to_ags (pyToMsVal (optAt (.obj fs) [.s "post", .s "timestamp"]))))]
          else [])
      ++ (if (optAt (.obj fs) [.s "source", .s "channels"]).truthy then
            [("source", .str (joinStrArr (optAt (.obj fs) [.s "source", .s "channels"])))]
          else [])
      ++ (if (optAt (.obj fs) [.s "relatedTerms"]).truthy then
            [("related_terms", .str (joinSubArr "text" (optAt (.obj fs) [.s "relatedTerms"])))]
          else [])
      ++ (if (optAt (.obj fs) [.s "categories"]).truthy then
            [("categories", .str (joinSubArr "name" (optAt (.obj fs) [.s "categories"])))]
          else [])) := by
  have e0 : d_extract (JVal.obj fs) "alertId" true .null false = .ok aid := by
    have h := extract_single fs "alertId" true .null false
    rw [haid] at h
    exact h
  have e1 : d_extract (JVal.obj fs) "eventLocation.name" false .null false =
      .ok (optAt (JVal.obj fs) [.s "eventLocation", .s "name"]) :=
    extract_opt (JVal.obj fs) [.s "eventLocation", .s "name"] false
      (lookupPath_two_ne_typeError fs "eventLocation" "name" hEL)
  have e2 : d_extract (JVal.obj fs) "alertType.name" false .null false =
      .ok (optAt (JVal.obj fs) [.s "alertType", .s "name"]) :=
    extract_opt (JVal.obj fs) [.s "alertType", .s "name"] false
      (lookupPath_two_ne_typeError fs "alertType" "name" hAT)
  have e3 : d_extract (JVal.obj fs) "alertType.color" false .null false =
      .ok (optAt (JVal.obj fs) [.s "alertType", .s "color"]) :=
    extract_opt (JVal.obj fs) [.s "alertType", .s "color"] false
      (lookupPath_two_ne_typeError fs "alertType" "color" hAT)
  have e4 : d_extract (JVal.obj fs) "caption" false .null false =
      .ok (optAt (JVal.obj fs) [.s "caption"]) :=
    extract_opt (JVal.obj fs) [.s "caption"] false
      (lookupPath_single_ne_typeError fs "caption")
  have e5 : d_extract (JVal.obj fs) "publisherCategory.name" false .null false =
      .ok (optAt (JVal.obj fs) [.s "publisherCategory", .s "name"]) :=
    extract_opt (JVal.obj fs) [.s "publisherCategory", .s "name"] false
      (lookupPath_two_ne_typeError fs "publisherCategory" "name" hPC)
  have e6 : d_extract (JVal.obj fs) "publisherCategory.color" false .null false =
      .ok (optAt (JVal.obj fs) [.s "publisherCategory", .s "color"]) :=
    extract_opt (JVal.obj fs) [.s "publisherCategory", .s "color"] false
      (lookupPath_two_ne_typeError fs "publisherCategory" "color" hPC)
  have e7 : d_extract (JVal.obj fs) "relatedTermsQueryURL" false .null false =
      .ok (optAt (JVal.obj fs) [.s "relatedTermsQueryURL"]) :=
    extract_opt (JVal.obj fs) [.s "relatedTermsQueryURL"] false
      (lookupPath_single_ne_typeError fs "relatedTermsQueryURL")
  have e8 : d_extract (JVal.obj fs) "expandAlertURL" false .null false =
      .ok (optAt (JVal.obj fs) [.s "expandAlertURL"]) :=
    extract_opt (JVal.obj fs) [.s "expandAlertURL"] false
      (lookupPath_single_ne_typeError fs "expandAlertURL")
  have e9 : d_extract (JVal.obj fs) "post.text" false .null false =
      .ok (optAt (JVal.obj fs) [.s "post", .s "text"]) :=
    extract_opt (JVal.obj fs) [.s "post", .s "text"] false
      (lookupPath_two_ne_typeError fs "post" "text" hPost)
  have e10 : d_extract (JVal.obj fs) "post.translatedText" false .null false =
      .ok (optAt (JVal.obj fs) [.s "post", .s "translatedText"]) :=
    extract_opt (JVal.obj fs) [.s "post", .s "translatedText"] false
      (lookupPath_two_ne_typeError fs "post" "translatedText" hPost)
  have e11 : extract (JVal.obj fs) [.s "eventLocation", .s "coordinates", .i 0]
      false .null false =
      .ok (optAt (JVal.obj fs) [.s "eventLocation", .s "coordinates", .i 0]) :=
    extract_opt (JVal.obj fs) [.s "eventLocation", .s "coordinates", .i 0] false
      (lookupPath_coords_ne_typeError fs hEL hCoord 0)
  have e12 : extract (JVal.obj fs) [.s "eventLocation", .s "coordinates", .i 1]
      false .null false =
      .ok (optAt (JVal.obj fs) [.s "eventLocation", .s "coordinates", .i 1]) :=
    extract_opt (JVal.obj fs) [.s "eventLocation", .s "coordinates", .i 1] false
      (lookupPath_coords_ne_typeError fs hEL hCoord 1)
  have e13 : d_extract (JVal.obj fs) "eventTime" false .null false =
      .ok (optAt (JVal.obj fs) [.s "eventTime"]) :=
    extract_opt (JVal.obj fs) [.s "eventTime"] false
      (lookupPath_single_ne_typeError fs "eventTime")
  have e14 : d_extract (JVal.obj fs) "post.timestamp" false .null false =
      .ok (optAt (JVal.obj fs) [.s "post", .s "timestamp"]) :=
    extract_opt (JVal.obj fs) [.s "post", .s "timestamp"] false
      (lookupPath_two_ne_typeError fs "post" "timestamp" hPost)
  have e15 : d_extract (JVal.obj fs) "source.channels" false .null false =
      .ok (optAt (JVal.obj fs) [.s "source", .s "channels"]) :=
    extract_opt (JVal.obj fs) [.s "source", .s "channels"] false
      (lookupPath_two_ne_typeError fs "source" "channels" hSrc)
  have e16 : d_extract (JVal.obj fs) "relatedTerms" false .null false =
      .ok (optAt (JVal.obj fs) [.s "relatedTerms"]) :=
    extract_opt (JVal.obj fs) [.s "relatedTerms"] false
      (lookupPath_single_ne_typeError fs "relatedTerms")
  have e17 : d_extract (JVal.obj fs) "categories" false .null false =
      .ok (optAt (JVal.obj fs) [.s "categories"]) :=
    extract_opt (JVal.obj fs) [.s "categories"] false
      (lookupPath_single_ne_typeError fs "categories")
  have sET : ∀ props : Dict,
      addTimeField props "event_time" (optAt (JVal.obj fs) [.s "eventTime"]) =
        .ok (props ++ (if isPosNum (optAt (JVal.obj fs) [.s "eventTime"]) then
          [("event_time", .str (timestamp_to_ags (pyToMsVal (optAt (JVal.obj fs) [.s "eventTime"]))))]
        else [])) :=
    fun props => addTimeField_spec props _ _
      (pathOk_optAt _ _ _ hET rfl)
  have sPT : ∀ props : Dict,
      addTimeField props "post_time" (optAt (JVal.obj fs) [.s "post", .s "timestamp"]) =
        .ok (props ++ (if isPosNum (optAt (JVal.obj fs) [.s "post", .s "timestamp"]) then
          [("post_time", .str (timestamp_to_ags (pyToMsVal (optAt (JVal.obj fs) [.s "post", .s "timestamp"]))))]
        else [])) :=
    fun props => addTimeField_spec props _ _
      (pathOk_optAt _ _ _ hPT rfl)
  have sCh : ∀ props : Dict,
      addSourceField props (optAt (JVal.obj fs) [.s "source", .s "channels"]) =
        .ok (props ++ (if (optAt (JVal.obj fs) [.s "source", .s "channels"]).truthy then
          [("source", .str (joinStrArr (optAt (JVal.obj fs) [.s "source", .s "channels"])))]
        else [])) :=
    fun props => addSourceField_spec props _
      (pathOk_optAt _ _ _ hCh rfl)
  have sRT : ∀ props : Dict,
      addJoinedSubfield props "related_terms" "text" (optAt (JVal.obj fs) [.s "relatedTerms"]) =
        .ok (props ++ (if (optAt (JVal.obj fs) [.s "relatedTerms"]).truthy then
          [("related_terms", .str (joinSubArr "text" (optAt (JVal.obj fs) [.s "relatedTerms"])))]
        else [])) :=
    fun props => addJoinedSubfield_spec props _ _ _
      (pathOk_optAt _ _ _ hRT rfl)
  have sCat : ∀ props : Dict,
      addJoinedSubfield props "categories" "name" (optAt (JVal.obj fs) [.s "categories"]) =
        .ok (props ++ (if (optAt (JVal.obj fs) [.s "categories"]).truthy then
          [("categories", .str (joinSubArr "name" (optAt (JVal.obj fs) [.s "categories"])))]
        else [])) :=
    fun props => addJoinedSubfield_spec props _ _ _
      (pathOk_optAt _ _ _ hCat rfl)
  simp only [alert_to_row, e0, e1, e2, e3, e4, e5, e6, e7, e8, e9, e10, e11,
    e12, e13, e14, e15, e16, e17, ok_bind, sET, sPT, sCh, sRT, sCat,
    pure_eq_ok]

/-- C4 (amended): for a *well-formed* alert object (`wfAlert`: JSON shapes
as `alert_to_row` expects, e.g. every `relatedTerms` entry has a `text`
field), `alert_to_row` raises `KeyError` when `alertId` is absent, and
otherwise returns a row whose `alert_id` is the object's `alertId`, whose
optional fields are `None` (simple copies) or absent (manipulated fields)
when the source field is missing, and which contains `event_time` exactly
when `eventTime` is present and greater than zero.  (Without the
well-formedness proviso the original claim is false: see the
counterexample, where a malformed `relatedTerms` entry raises `KeyError`
although `alertId` is present.) -/
theorem alert_to_row_wellformed_spec (obj : JVal) (hwf : wfAlert obj = true) :
    (getField obj "alertId" = none → alert_to_row obj = .error PyErr.keyError) ∧
    (∀ aid, getField obj "alertId" = some aid →
      ∃ row, alert_to_row obj = .ok row ∧
        row.lookup "alert_id" = some aid ∧
        (isMissing (lookupPath obj [.s "eventLocation", .s "name"]) = true →
          row.lookup "place" = some .null) ∧
        (getField obj "caption" = none → row.lookup "caption" = some .null) ∧
        (isMissing (lookupPath obj [.s "eventLocation", .s "coordinates", .i 0]) = true →
          row.lookup "lon" = some .null) ∧
        (isMissing (lookupPath obj [.s "eventLocation", .s "coordinates", .i 1]) = true →
          row.lookup "lat" = some .null) ∧
        ((row.lookup "event_time").isSome = true ↔
          isPosNum (optAt obj [.s "eventTime"]) = true) ∧
        ((row.lookup "post_time").isSome = true ↔
          isPosNum (optAt obj [.s "post", .s "timestamp"]) = true) ∧
        (isMissing (lookupPath obj [.s "source", .s "channels"]) = true →
          row.lookup "source" = none) ∧
        (getField obj "relatedTerms" = none → row.lookup "related_terms" = none) ∧
        (getField obj "categories" = none → row.lookup "categories" = none)) := by
  rw [wfAlert] at hwf
  simp only [Bool.and_eq_true] at hwf
  obtain ⟨⟨⟨⟨⟨⟨⟨⟨⟨⟨⟨hobj, hEL⟩, hCoord⟩, hAT⟩, hPC⟩, hPost⟩, hSrc⟩, hET⟩,
    hPT⟩, hCh⟩, hRT⟩, hCat⟩ := hwf
  cases obj with
  | null => simp [JVal.isObjB] at hobj
  | bool b => simp [JVal.isObjB] at hobj
  | num n => simp [JVal.isObjB] at hobj
  | str s => simp [JVal.isObjB] at hobj
  | arr xs => simp [JVal.isObjB] at hobj
  | obj fs =>
      constructor
      · intro hnone
        simp only [getField] at hnone
        have e0 : d_extract (JVal.obj fs) "alertId" true .null false =
            .error PyErr.keyError := by
          have h := extract_single fs "alertId" true .null false
          rw [hnone] at h
          simpa [JVal.isNull] using h
        simp only [alert_to_row, e0, error_bind]
      · intro aid haid
        simp only [getField] at haid
        refine ⟨_, alert_to_row_closed fs aid haid hEL hCoord hAT hPC hPost
          hSrc hET hPT hCh hRT hCat, ?_, ?_, ?_, ?_, ?_, ?_, ?_, ?_, ?_, ?_⟩
        · simp [dictLookup_append, baseProps_alert_id, Option.or]
        · intro hm
          simp [dictLookup_append, baseProps_place, Option.or,
            optAt_of_missing _ _ hm]
        · intro hm
          simp only [getField] at hm
          simp [dictLookup_append, baseProps_caption, Option.or,
            optAt_of_absent fs "caption" hm]
        · intro hm
          simp [dictLookup_append, baseProps_lon, Option.or,
            optAt_of_missing _ _ hm]
        · intro hm
          simp [dictLookup_append, baseProps_lat, Option.or,
            optAt_of_missing _ _ hm]
        · by_cases hc : isPosNum (optAt (JVal.obj fs) [.s "eventTime"]) = true <;>
            simp [dictLookup_append, baseProps_event_time, Option.or,
              lookup_ite_single, hc]
        · by_cases hc :
              isPosNum (optAt (JVal.obj fs) [.s "post", .s "timestamp"]) = true <;>
            simp [dictLookup_append, baseProps_post_time, Option.or,
              lookup_ite_single, hc]
        · intro hm
          simp [dictLookup_append, baseProps_source, Option.or,
            lookup_ite_single, optAt_of_missing _ _ hm, JVal.truthy]
        · intro hm
          simp only [getField] at hm
          simp [dictLookup_append, baseProps_related_terms, Option.or,
            lookup_ite_single, optAt_of_absent fs "relatedTerms" hm, JVal.truthy]
        · intro hm
          simp only [getField] at hm
          simp [dictLookup_append, baseProps_categories, Option.or,
            lookup_ite_single, optAt_of_absent fs "categories" hm, JVal.truthy]

/-- C4 (counterexample to the original claim): on
`{'alertId': 'a1', 'relatedTerms': [{}]}` the `alertId` key is present,
yet `alert_to_row` raises `KeyError` — the comprehension
`[t['text'] for t in terms]` hits the entry without a `text` key — so
"raises KeyError if and only if the object has no alertId key" is false as
stated. -/
theorem alert_to_row_keyError_despite_alertId :
    getField (.obj [("alertId", .str "a1"), ("relatedTerms", .arr [.obj []])])
      "alertId" = some (.str "a1") ∧
    alert_to_row (.obj [("alertId", .str "a1"), ("relatedTerms", .arr [.obj []])]) =
      .error PyErr.keyError :=
  ⟨rfl, rfl⟩

theorem alert_to_row_wellformed_spec_witness :
    ∃ row,
      alert_to_row (JVal.obj [("alertId", JVal.str "a1"),
        ("eventTime", JVal.num 1700000000000)]) = .ok row ∧
      row.lookup "alert_id" = some (JVal.str "a1") ∧
      (row.lookup "event_time").isSome = true ∧
      row.lookup "place" = some .null := by
  have h := (alert_to_row_wellformed_spec
    (JVal.obj [("alertId", JVal.str "a1"), ("eventTime", JVal.num 1700000000000)])
    rfl).2 (JVal.str "a1") rfl
  obtain ⟨row, h1, h2, h3, h4, h5, h6, h7, h8, h9, h10, h11⟩ := h
  exact ⟨row, h1, h2, h7.mpr rfl, h3 rfl⟩
